import Mathlib

/-
Verification development for the Content-auditor repository.

The repository audits web pages: per URL it checks a disk cache, fetches the
HTML, extracts the main text, runs deterministic SEO and accessibility rule
checks, optionally calls an LLM tone analyzer under a call budget, assembles a
PageResult dictionary, caches it, and finally writes JSONL and CSV reports.

This file gives a shallow embedding of the relevant code:
  - src/rules/seo_rules.py and src/rules/a11y_rules.py (rule evaluators),
  - src/utils/budget.py (BudgetManager),
  - src/utils/cache.py (Cache),
  - src/chains/tone_chain.py (analyze_tone),
  - src/main.py (process_page, the audit batch loop, the summary.csv writer).

External collaborators (the HTTP fetch, readability text extraction, the
BeautifulSoup HTML parse, the LLM endpoint, and Python's json module) are
modelled as parameters: functions supplied to the embedded code, exactly at
the call boundaries the Python code uses them.
-/

namespace ContentAuditor

/-- JSON-like Python values: everything `json.loads` can produce and everything
the tone analyzer may hand back. Objects keep insertion order, as Python dicts
do. -/
inductive Json where
  | null : Json
  | bool (b : Bool) : Json
  | num (q : ℚ) : Json
  | str (s : String) : Json
  | arr (xs : List Json) : Json
  | obj (fields : List (String × Json)) : Json

/-- Python truthiness of a JSON-like value: None, False, 0, "", [] and {} are
falsy, everything else is truthy. -/
def Json.pyTruthy : Json → Bool
  | .null => false
  | .bool b => b
  | .num q => q != 0
  | .str s => s != ""
  | .arr xs => !xs.isEmpty
  | .obj fs => !fs.isEmpty

/-- Whether `needle` occurs as a substring of `hay` (Python's `in` on two
strings): some suffix of `hay` starts with `needle`. -/
def strContains (hay needle : String) : Bool :=
  hay.toList.tails.any (fun t => needle.toList.isPrefixOf t)

/-- Python's `key in value` for a string key against a JSON-like value:
key lookup on dicts, element membership on lists (a string key can only equal
a string element), substring test on strings; on numbers, booleans and None
it raises TypeError, modelled as `none`. -/
def pyIn (key : String) : Json → Option Bool
  | .obj fs => some (fs.any (fun e => e.1 == key))
  | .arr xs =>
    some (xs.any (fun x => match x with | .str s => s == key | _ => false))
  | .str s => some (strContains s key)
  | .null => none
  | .bool _ => none
  | .num _ => none

/-- Python's `all(key in result for key in keys)`: lazily evaluates each
membership test, short-circuits on the first False, and propagates a raised
TypeError (`none`) from the first test that raises. -/
def allKeysIn (keys : List String) (j : Json) : Option Bool :=
  match keys with
  | [] => some true
  | k :: ks =>
    match pyIn k j with
    | none => none
    | some false => some false
    | some true => allKeysIn ks j

/-! ## The parsed-HTML abstraction

The rule functions query the BeautifulSoup parse of the page through a fixed
set of probes: the title text, the description meta tag's content attribute,
the canonical link's href attribute, the images' alt attributes, the links'
stripped texts, and the number of headings per level. `Soup` records exactly
those observations; `BeautifulSoup(html, 'html.parser')` itself is an external
collaborator producing a `Soup` from the HTML string. -/

structure Soup where
  /-- Stripped text of the `<title>` tag; `none` when the tag is absent. -/
  titleText : Option String
  /-- The `content` attribute of `<meta name="description">`; `none` when the
  tag or the attribute is absent. -/
  metaDesc : Option String
  /-- The `href` attribute of `<link rel="canonical">`; `none` when the tag or
  the attribute is absent. -/
  canonicalHref : Option String
  /-- One entry per `<img>` tag in document order: whether the tag has an
  `alt` attribute (`img.get('alt') is not None`). -/
  imgAlts : List Bool
  /-- One entry per `<a>` tag in document order: its stripped text. -/
  linkTexts : List String
  /-- Number of `<h1>` .. `<h6>` tags. -/
  h1 : Nat
  h2 : Nat
  h3 : Nat
  h4 : Nat
  h5 : Nat
  h6 : Nat
deriving DecidableEq, Repr

/-- A soup with no tags at all: what BeautifulSoup observes on empty HTML
(no title, no meta description, no canonical link, no images, no links, no
headings). -/
def emptySoup : Soup :=
  { titleText := none, metaDesc := none, canonicalHref := none,
    imgAlts := [], linkTexts := [],
    h1 := 0, h2 := 0, h3 := 0, h4 := 0, h5 := 0, h6 := 0 }

/-- Accumulator loop for `pySplitWs`: walk the characters, flushing the
current (reversed) word at each whitespace character. -/
def splitWsAux : List Char → List Char → List String
  | [], acc => if acc.isEmpty then [] else [String.mk acc.reverse]
  | c :: cs, acc =>
    if c.isWhitespace then
      if acc.isEmpty then splitWsAux cs []
      else String.mk acc.reverse :: splitWsAux cs []
    else splitWsAux cs (c :: acc)

/-- Python's `str.split()` with no arguments: split on whitespace runs and
drop empty pieces. -/
def pySplitWs (s : String) : List String :=
  splitWsAux s.toList []

/-- Python's `sum(scores) / len(scores) if scores else 0`. -/
def pyMean (xs : List ℚ) : ℚ :=
  if xs.length = 0 then 0 else xs.sum / xs.length

/-- Models Python's f-string `"{x:.1f}"` on the (non-negative) percentage
values the rule functions format: fixed one-decimal rendering of a rational,
ties rounded to even. Only used inside issue-message strings; no claim
depends on the rendered digits. -/
def fmt1 (q : ℚ) : String :=
  let t : ℚ := q * 10
  let f : ℤ := ⌊t⌋
  let frac : ℚ := t - f
  let r : ℤ :=
    if frac > 1/2 then f + 1
    else if frac < 1/2 then f
    else if f % 2 = 0 then f else f + 1
  let ip : ℤ := r / 10
  let fp : Nat := (r % 10).natAbs
  s!"{ip}.{fp}"

/-! ## src/rules/seo_rules.py -/

/-- Return shape of `check_title_tag` and `check_meta_description`:
`{"score": .., "length": .., "issues": [..]}`. -/
structure LenCheckResult where
  score : ℚ
  length : Nat
  issues : List String
deriving DecidableEq, Repr

/-- check_title_tag (src/rules/seo_rules.py lines 56-79). -/
def check_title_tag (soup : Soup) : LenCheckResult :=
  match soup.titleText with
  | none => { score := 0, length := 0, issues := ["Missing title tag"] }
  | some title_text =>
    let length := title_text.length
    if length = 0 then
      { score := 0, length := length, issues := ["Empty title tag"] }
    else if length < 30 then
      { score := 50, length := length,
        issues := [s!"Title too short ({length} chars, recommended 30-60)"] }
    else if length > 60 then
      { score := 75, length := length,
        issues := [s!"Title too long ({length} chars, recommended 30-60)"] }
    else
      { score := 100, length := length, issues := [] }

/-- check_meta_description (src/rules/seo_rules.py lines 82-105). The guard
`not meta_desc or not meta_desc.get('content')` also treats an empty content
attribute as missing. -/
def check_meta_description (soup : Soup) : LenCheckResult :=
  match soup.metaDesc with
  | none => { score := 0, length := 0, issues := ["Missing meta description"] }
  | some desc_text =>
    if desc_text = "" then
      { score := 0, length := 0, issues := ["Missing meta description"] }
    else
      let length := desc_text.length
      if length < 120 then
        { score := 50, length := length,
          issues := [s!"Meta description too short ({length} chars, recommended 120-160)"] }
      else if length > 160 then
        { score := 75, length := length,
          issues := [s!"Meta description too long ({length} chars, recommended 120-160)"] }
      else
        { score := 100, length := length, issues := [] }

/-- Return shape of `check_h1_tags` and `check_word_count`:
`{"score": .., "count": .., "issues": [..]}`. -/
structure CountCheckResult where
  score : ℚ
  count : Nat
  issues : List String
deriving DecidableEq, Repr

/-- check_h1_tags (src/rules/seo_rules.py lines 108-123). -/
def check_h1_tags (soup : Soup) : CountCheckResult :=
  let count := soup.h1
  if count = 0 then
    { score := 0, count := count, issues := ["Missing H1 tag"] }
  else if count > 1 then
    { score := 75, count := count,
      issues := [s!"Multiple H1 tags found ({count}, recommended 1)"] }
  else
    { score := 100, count := count, issues := [] }

/-- Return shape of `check_canonical`: `{"score": .., "issues": [..]}`. -/
structure ScoreIssuesResult where
  score : ℚ
  issues : List String
deriving DecidableEq, Repr

/-- check_canonical (src/rules/seo_rules.py lines 126-136). The guard
`not canonical or not canonical.get('href')` also treats an empty href as
missing. -/
def check_canonical (soup : Soup) : ScoreIssuesResult :=
  match soup.canonicalHref with
  | none => { score := 0, issues := ["Missing canonical URL"] }
  | some href =>
    if href = "" then { score := 0, issues := ["Missing canonical URL"] }
    else { score := 100, issues := [] }

/-- check_word_count (src/rules/seo_rules.py lines 139-154). -/
def check_word_count (text : String) : CountCheckResult :=
  let count := (pySplitWs text).length
  if count < 300 then
    { score := 25, count := count,
      issues := [s!"Low word count ({count}, recommended 300+)"] }
  else if count < 600 then
    { score := 75, count := count, issues := [] }
  else
    { score := 100, count := count, issues := [] }

/-- Return shape of `check_seo` / `check_a11y`: `{"scores": {..},
"issues": [..], "metrics": {..}, "overall_score": ..}`, with the scores and
metrics dicts kept in insertion order. -/
structure RuleResult where
  scores : List (String × ℚ)
  issues : List String
  metrics : List (String × ℚ)
  overall_score : ℚ
deriving DecidableEq, Repr

/-- check_seo (src/rules/seo_rules.py lines 9-53): runs the five sub-checks,
collects their scores and issues in order, and sets `overall_score` to the
mean of the sub-scores. -/
def check_seo (soup : Soup) (text : String) : RuleResult :=
  let t := check_title_tag soup
  let m := check_meta_description soup
  let h := check_h1_tags soup
  let c := check_canonical soup
  let w := check_word_count text
  let scores : List (String × ℚ) :=
    [("title", t.score), ("meta_description", m.score), ("h1", h.score),
     ("canonical", c.score), ("word_count", w.score)]
  { scores := scores
    issues := t.issues ++ m.issues ++ h.issues ++ c.issues ++ w.issues
    metrics :=
      [("title_length", (t.length : ℚ)), ("meta_desc_length", (m.length : ℚ)),
       ("h1_count", (h.count : ℚ)), ("word_count", (w.count : ℚ))]
    overall_score := pyMean (scores.map (fun e => e.2)) }

/-! ## src/rules/a11y_rules.py -/

/-- Return shape of `check_image_alts`: `{"score": .., "total": ..,
"with_alt": .., "issues": [..]}`. -/
structure ImageAltsResult where
  score : ℚ
  total : Nat
  with_alt : Nat
  issues : List String
deriving DecidableEq, Repr

/-- check_image_alts (src/rules/a11y_rules.py lines 46-84). -/
def check_image_alts (soup : Soup) : ImageAltsResult :=
  let total := soup.imgAlts.length
  if total = 0 then
    { score := 100, total := 0, with_alt := 0, issues := [] }
  else
    let with_alt := (soup.imgAlts.filter (fun b => b)).length
    let alt_percentage : ℚ := (with_alt : ℚ) / (total : ℚ) * 100
    let missing := total - with_alt
    let msg :=
      s!"{missing} images missing alt text ({fmt1 alt_percentage}% have alt)"
    if alt_percentage = 100 then
      { score := 100, total := total, with_alt := with_alt, issues := [] }
    else if alt_percentage ≥ 80 then
      { score := 75, total := total, with_alt := with_alt, issues := [msg] }
    else if alt_percentage ≥ 50 then
      { score := 50, total := total, with_alt := with_alt, issues := [msg] }
    else
      { score := 25, total := total, with_alt := with_alt, issues := [msg] }

/-- The flat heading-level list built by check_heading_hierarchy: for each
level 1..6 in turn, one entry per heading of that level. Note the source
appends all h1s, then all h2s, and so on — level order, not document order. -/
def Soup.headingLevels (s : Soup) : List Nat :=
  List.replicate s.h1 1 ++ List.replicate s.h2 2 ++ List.replicate s.h3 3 ++
    List.replicate s.h4 4 ++ List.replicate s.h5 5 ++ List.replicate s.h6 6

/-- First adjacent pair in the list whose second element exceeds the first by
more than one (the loop in check_heading_hierarchy breaks at the first skip). -/
def findSkip : List Nat → Option (Nat × Nat)
  | a :: b :: rest =>
    if (b : ℤ) - (a : ℤ) > 1 then some (a, b) else findSkip (b :: rest)
  | _ => none

/-- check_heading_hierarchy (src/rules/a11y_rules.py lines 87-110): score 50
with "No headings found" when there are no headings at all, score 50 at the
first level skip, otherwise 100. -/
def check_heading_hierarchy (soup : Soup) : ScoreIssuesResult :=
  let headings := soup.headingLevels
  if headings.isEmpty then
    { score := 50, issues := ["No headings found"] }
  else
    match findSkip headings with
    | some (a, b) =>
      { score := 50, issues := [s!"Heading hierarchy skips from H{a} to H{b}"] }
    | none => { score := 100, issues := [] }

/-- Return shape of `check_link_text`: `{"score": .., "total": ..,
"with_text": .., "issues": [..]}`. -/
structure LinkTextResult where
  score : ℚ
  total : Nat
  with_text : Nat
  issues : List String
deriving DecidableEq, Repr

/-- The generic phrases list of check_link_text. -/
def generic_phrases : List String :=
  ["click here", "read more", "here", "more", "link"]

/-- check_link_text (src/rules/a11y_rules.py lines 113-150). Link texts are
lowercased before the emptiness and generic-phrase tests; the Python
comparison `generic_count > total * 0.2` is modelled with the exact rational
one fifth. -/
def check_link_text (soup : Soup) : LinkTextResult :=
  let total := soup.linkTexts.length
  if total = 0 then
    { score := 100, total := 0, with_text := 0, issues := [] }
  else
    let texts := soup.linkTexts.map (fun t => t.toLower)
    let with_text := (texts.filter (fun t => t != "")).length
    let generic_count :=
      (texts.filter (fun t => t != "" && generic_phrases.contains t)).length
    let text_percentage : ℚ := (with_text : ℚ) / (total : ℚ) * 100
    if text_percentage < 80 then
      { score := 25, total := total, with_text := with_text,
        issues := [s!"{total - with_text} links without text ({fmt1 text_percentage}% have text)"] }
    else if (generic_count : ℚ) > (total : ℚ) * (1/5) then
      { score := 50, total := total, with_text := with_text,
        issues := [s!"{generic_count} links use generic text (e.g., \x27click here\x27, \x27read more\x27)"] }
    else
      { score := 100, total := total, with_text := with_text, issues := [] }

/-- check_a11y (src/rules/a11y_rules.py lines 9-43): runs the three
sub-checks, collects their scores and issues in order, and sets
`overall_score` to the mean of the sub-scores. The `text` argument is unused
by the source just as here. -/
def check_a11y (soup : Soup) (_text : String) : RuleResult :=
  let i := check_image_alts soup
  let h := check_heading_hierarchy soup
  let l := check_link_text soup
  let scores : List (String × ℚ) :=
    [("image_alts", i.score), ("heading_hierarchy", h.score),
     ("link_text", l.score)]
  { scores := scores
    issues := i.issues ++ h.issues ++ l.issues
    metrics :=
      [("images_total", (i.total : ℚ)), ("images_with_alt", (i.with_alt : ℚ)),
       ("links_total", (l.total : ℚ)), ("links_with_text", (l.with_text : ℚ))]
    overall_score := pyMean (scores.map (fun e => e.2)) }

/-! ## src/utils/budget.py -/

/-- BudgetManager state: `max_calls` as handed to the constructor (a Python
int), the running `calls_made` counter (starts at 0, only ever incremented),
and the per-type counter dict in insertion order. -/
structure BudgetManager where
  max_calls : ℤ
  calls_made : Nat
  calls_by_type : List (String × Nat)
deriving DecidableEq, Repr

/-- BudgetManager.__init__ (src/utils/budget.py lines 12-22). -/
def BudgetManager.new (max_calls : ℤ) : BudgetManager :=
  { max_calls := max_calls, calls_made := 0, calls_by_type := [] }

/-- BudgetManager.can_make_call (src/utils/budget.py lines 24-39): False when
`calls_made >= max_calls`, True otherwise. The call type is only used for
logging. -/
def BudgetManager.can_make_call (b : BudgetManager) (_call_type : String) : Bool :=
  !((b.calls_made : ℤ) ≥ b.max_calls)

/-- Python's `d[k] = d.get(k, 0) + 1` on an insertion-ordered dict: update the
existing entry in place, or append a new entry with count 1. -/
def bumpType (m : List (String × Nat)) (k : String) : List (String × Nat) :=
  if m.any (fun e => e.1 == k) then
    m.map (fun e => if e.1 == k then (e.1, e.2 + 1) else e)
  else
    m ++ [(k, 1)]

/-- BudgetManager.record_call (src/utils/budget.py lines 41-55): increments
the global and per-type counters unconditionally — it never re-checks the
ceiling. -/
def BudgetManager.record_call (b : BudgetManager) (call_type : String) : BudgetManager :=
  { b with
    calls_made := b.calls_made + 1
    calls_by_type := bumpType b.calls_by_type call_type }

/-- The per-type count `calls_by_type.get(call_type, 0)`. -/
def BudgetManager.typeCount (b : BudgetManager) (k : String) : Nat :=
  ((b.calls_by_type.find? (fun e => e.1 == k)).map (fun e => e.2)).getD 0

/-! ## src/main.py — PageResult dictionaries -/

/-- The result dictionary assembled by process_page. Success results populate
every field and carry no "error" key; error results carry only url, error,
empty seo_rules/a11y_rules dicts and a null tone_summary — in particular the
"issues" and "scores" keys are ABSENT on error results, which `Option` makes
explicit (`none` on seo_rules/a11y_rules models the literal empty dict). -/
structure PageResult where
  url : String
  seo_rules : Option RuleResult
  a11y_rules : Option RuleResult
  tone_summary : Option Json
  issues : Option (List String)
  scores : Option (ℚ × ℚ)
  error : Option String

/-- The error-shaped PageResult built at the two early returns of
process_page (src/main.py lines 105-123). -/
def errorResult (url msg : String) : PageResult :=
  { url := url, seo_rules := none, a11y_rules := none, tone_summary := none,
    issues := none, scores := none, error := some msg }

/-! ## src/utils/cache.py

The cache directory holds one JSON file per key, named by the SHA-256 hex
digest of the key. The store is modelled as an association list from digest to
the stored PageResult, with at most one entry per digest (one file per name);
the digest function itself is a parameter `hash`, and Python's `json.dump` /
`json.load` round trip through the file is the identity on the stored value
(both are stdlib collaborators outside this repository). -/

abbrev CacheStore := List (String × PageResult)

/-- Cache.get (src/utils/cache.py lines 51-72): read the file named by the
key's digest, `none` when absent. -/
def cacheGet (hash : String → String) (store : CacheStore) (key : String) : Option PageResult :=
  (store.find? (fun e => e.1 == hash key)).map (fun e => e.2)

/-- Cache.set (src/utils/cache.py lines 74-88): (over)write the file named by
the key's digest with the serialized data. -/
def cacheSet (hash : String → String) (store : CacheStore) (key : String)
    (data : PageResult) : CacheStore :=
  (hash key, data) :: store.filter (fun e => !(e.1 == hash key))

/-- The deletion loop of Cache.clear: unlink each `*.json` file, counting. -/
def clearLoop : CacheStore → Nat → CacheStore × Nat
  | [], count => ([], count)
  | _ :: rest, count => clearLoop rest (count + 1)

/-- Outcome of Cache.clear: the store afterwards, the local `count` variable
(how many files were unlinked — it is logged), and the method's Python return
value. -/
structure ClearOutcome where
  store : CacheStore
  deleted : Nat
  ret : Option Nat

/-- Cache.clear (src/utils/cache.py lines 90-96): deletes every `*.json` file
in the cache directory and logs the count. The method body has no return
statement, so its return value is None (`ret := none`). -/
def cacheClear (store : CacheStore) : ClearOutcome :=
  let (s, count) := clearLoop store 0
  { store := s, deleted := count, ret := none }

/-! ## src/main.py — process_page -/

/-- The external collaborators process_page calls, supplied as functions:
`fetch_page` (src/utils/html_fetch.py, returns the HTML or None), the
`extract_text` collaborator (src/utils/html_to_text.py, returns the cleaned
text or None), the BeautifulSoup parse used by the rule evaluators, the
`analyze_tone` call's behaviour per input text (None models an analyzer
error), and the SHA-256 hex digest used by the cache. -/
structure Collab where
  fetch : String → Option String
  extract : String → Option String
  soupOf : String → Soup
  tone : String → Option Json
  hash : String → String

/-- How many times each collaborator stage was invoked during one
process_page call — the mocked-collaborator call counts of the spec's
cache-bypass property. `rules` counts the rule-evaluation stage (check_seo
and check_a11y together); `tone` counts analyze_tone invocations. -/
structure Calls where
  fetch : Nat
  extract : Nat
  rules : Nat
  tone : Nat
deriving DecidableEq, Repr

def Calls.none : Calls := ⟨0, 0, 0, 0⟩

def Calls.add (a b : Calls) : Calls :=
  ⟨a.fetch + b.fetch, a.extract + b.extract, a.rules + b.rules, a.tone + b.tone⟩

/-- Everything one process_page call produces: the returned PageResult, the
cache store and budget afterwards, and the collaborator call counts. -/
structure ProcOut where
  result : PageResult
  cache : CacheStore
  budget : BudgetManager
  calls : Calls

/-- The success-path result assembly of process_page (src/main.py lines
137-148): merged issues (SEO first, then A11y) and the two overall scores. -/
def assembleResult (url : String) (seo a11y : RuleResult)
    (tone_summary : Option Json) : PageResult :=
  { url := url, seo_rules := some seo, a11y_rules := some a11y,
    tone_summary := tone_summary,
    issues := some (seo.issues ++ a11y.issues),
    scores := some (seo.overall_score, a11y.overall_score),
    error := none }

/-- process_page (src/main.py lines 77-153). Steps: cache lookup (a hit —
every stored PageResult dict is non-empty, hence truthy — returns the stored
result untouched); fetch (`if not html` treats None and the empty string as
failure, returning an uncached "Failed to fetch page" result); extract
(likewise "Failed to extract text"); the two rule evaluators; the
budget-gated tone analysis, where record_call runs only when analyze_tone
returned a truthy (non-None) value; assembly; and the cache write. -/
def process_page (cb : Collab) (url : String) (store : CacheStore)
    (budget : BudgetManager) (use_llm : Bool) : ProcOut :=
  match cacheGet cb.hash store url with
  | some cached => ⟨cached, store, budget, Calls.none⟩
  | none =>
    match cb.fetch url with
    | none => ⟨errorResult url "Failed to fetch page", store, budget, ⟨1, 0, 0, 0⟩⟩
    | some html =>
      if html = "" then
        ⟨errorResult url "Failed to fetch page", store, budget, ⟨1, 0, 0, 0⟩⟩
      else
        match cb.extract html with
        | none =>
          ⟨errorResult url "Failed to extract text", store, budget, ⟨1, 1, 0, 0⟩⟩
        | some text =>
          if text = "" then
            ⟨errorResult url "Failed to extract text", store, budget, ⟨1, 1, 0, 0⟩⟩
          else
            let seo := check_seo (cb.soupOf html) text
            let a11y := check_a11y (cb.soupOf html) text
            let step :=
              if use_llm && budget.can_make_call "tone_analysis" then
                match cb.tone text with
                | some t =>
                  (some t,
                   if t.pyTruthy then budget.record_call "tone_analysis" else budget,
                   1)
                | none => (Option.none, budget, 1)
              else (Option.none, budget, 0)
            let result := assembleResult url seo a11y step.1
            ⟨result, cacheSet cb.hash store url result, step.2.1, ⟨1, 1, 1, step.2.2⟩⟩

/-! ## src/main.py — the audit batch loop and the report writers -/

/-- Output of the batch loop: the collected results in processing order, the
final cache store and budget, and the summed collaborator call counts. -/
structure BatchOut where
  results : List PageResult
  cache : CacheStore
  budget : BudgetManager
  calls : Calls

/-- The batch loop of audit (src/main.py lines 204-212): process each URL in
input order with `use_llm = not no_llm`, append its result, and stop early as
soon as `not no_llm and not budget.can_make_call()` — the post-page budget
check with the default call type. URLs after the stop are never attempted. -/
def auditLoop (cb : Collab) (no_llm : Bool) (urls : List String)
    (store : CacheStore) (budget : BudgetManager) : BatchOut :=
  match urls with
  | [] => ⟨[], store, budget, Calls.none⟩
  | url :: rest =>
    let out := process_page cb url store budget (!no_llm)
    if !no_llm && !(out.budget.can_make_call "default") then
      ⟨[out.result], out.cache, out.budget, out.calls⟩
    else
      let tail := auditLoop cb no_llm rest out.cache out.budget
      ⟨out.result :: tail.results, tail.cache, tail.budget,
       out.calls.add tail.calls⟩

/-- Driving process_page over a sequence of URLs with the shared cache and
budget threaded through, with no stop condition: the raw "sequential run"
of the budget-ceiling property. -/
def runPages (cb : Collab) (use_llm : Bool) (urls : List String)
    (store : CacheStore) (budget : BudgetManager) : CacheStore × BudgetManager :=
  match urls with
  | [] => (store, budget)
  | url :: rest =>
    let out := process_page cb url store budget use_llm
    runPages cb use_llm rest out.cache out.budget

/-- One row of reports/summary.csv as written by audit (src/main.py lines
229-239). Python evaluates `result["url"]`, `result['scores']['seo']`,
`result['scores']['a11y']`, `len(result["issues"])` and
`result.get("tone_summary")`; indexing a missing "scores" or "issues" key
raises KeyError, modelled as `none`. -/
def summaryRow (r : PageResult) : Option (String × ℚ × ℚ × Nat × String) :=
  match r.scores, r.issues with
  | some sc, some iss =>
    some (r.url, sc.1, sc.2, iss.length,
          if (match r.tone_summary with
              | some t => t.pyTruthy
              | none => false) then "Yes" else "No")
  | _, _ => none

/-- Writing the whole summary.csv body: one row per result, in order; the
write raises (returns `none`) as soon as any row raises. -/
def writeSummary (results : List PageResult) : Option (List (String × ℚ × ℚ × Nat × String)) :=
  results.mapM summaryRow

/-! ## src/chains/tone_chain.py — analyze_tone

The Ollama call and Python's `json.loads` are external: the model's raw
response (or an exception anywhere inside the outer try, modelled as `none`)
and the JSON parser (`none` models json.JSONDecodeError) are parameters. -/

/-- The markdown-fence stripping applied to the raw response (src/chains/
tone_chain.py lines 76-84): strip; when the response starts with a code
fence, drop the first and last lines (only when there are more than two) and
scrub any remaining fence markers. -/
def stripFence (resp0 : String) : String :=
  let response := resp0.trim
  if response.startsWith "```" then
    let lines := response.splitOn "\n"
    let response :=
      if lines.length > 2 then String.intercalate "\n" ((lines.drop 1).dropLast)
      else response
    (((response.replace "```json" "").replace "```" "")).trim
  else response

/-- The keys analyze_tone requires in the parsed response. -/
def requiredKeys : List String := ["readability", "tone", "risks"]

/-- The placeholder dict returned when the parsed response misses a required
key (src/chains/tone_chain.py lines 92-96). -/
def missingKeysPlaceholder : Json :=
  Json.obj [("readability", Json.str "Unable to analyze"),
            ("tone", Json.str "Unable to analyze"),
            ("risks", Json.str "Analysis failed - invalid response format")]

/-- The placeholder dict returned when the response is not valid JSON
(src/chains/tone_chain.py lines 104-108). -/
def parseErrorPlaceholder : Json :=
  Json.obj [("readability", Json.str "Unable to analyze"),
            ("tone", Json.str "Unable to analyze"),
            ("risks", Json.str "Analysis failed - JSON parse error")]

/-- analyze_tone (src/chains/tone_chain.py lines 21-112). `llm` is the raw
LLM response (`none` when anything inside the outer try raises — environment
access, the Ollama client, the invoke call); `loads` is Python's json.loads
(`none` on json.JSONDecodeError, which the inner except turns into the
parse-error placeholder). A TypeError raised by the `key in result` check on
a non-container parse result escapes the inner except clause and is caught by
the outer one, yielding None. -/
def analyze_tone (loads : String → Option Json) (llm : Option String) : Option Json :=
  match llm with
  | none => none
  | some resp =>
    let response := stripFence resp
    match loads response with
    | none => some parseErrorPlaceholder
    | some result =>
      match allKeysIn requiredKeys result with
      | none => none
      | some false => some missingKeysPlaceholder
      | some true => some result

/-! ## Concrete collaborators used to instantiate the theorems -/

/-- A well-formed tone-analysis result. -/
def okJson : Json :=
  Json.obj [("readability", Json.str "ok"), ("tone", Json.str "ok"),
            ("risks", Json.str "ok")]

/-- Collaborators for which every stage succeeds on every input. -/
def okCollab : Collab :=
  { fetch := fun _ => some "<html>", extract := fun _ => some "body text",
    soupOf := fun _ => emptySoup, tone := fun _ => some okJson,
    hash := fun u => u }

/-- Collaborators for which the fetch fails on every input. -/
def failCollab : Collab :=
  { fetch := fun _ => none, extract := fun _ => none,
    soupOf := fun _ => emptySoup, tone := fun _ => none, hash := fun u => u }

/-- A sample stored PageResult for cache witnesses. -/
def sampleResult : PageResult := errorResult "u" "stored"

/-- Python's falsiness test `not x` on an optional string: None and the empty
string are falsy. -/
def pyFalsyStr : Option String → Bool
  | none => true
  | some s => s == ""

/-! ## Helper lemmas about process_page and the budget -/

/-- The budget after one process_page call is either untouched, or — only
when the gate `can_make_call("tone_analysis")` had passed — the result of one
record_call. -/
theorem process_page_budget_cases (cb : Collab) (url : String) (store : CacheStore)
    (b : BudgetManager) (use_llm : Bool) :
    (process_page cb url store b use_llm).budget = b ∨
      (b.can_make_call "tone_analysis" = true ∧
        (process_page cb url store b use_llm).budget = b.record_call "tone_analysis") := by
  cases hc : cacheGet cb.hash store url with
  | some cached => left; simp [process_page, hc]
  | none =>
    cases hf : cb.fetch url with
    | none => left; simp [process_page, hc, hf]
    | some html =>
      by_cases hh : html = ""
      · left; simp [process_page, hc, hf, hh]
      · cases he : cb.extract html with
        | none => left; simp [process_page, hc, hf, hh, he]
        | some text =>
          by_cases ht : text = ""
          · left; simp [process_page, hc, hf, hh, he, ht]
          · by_cases hg : (use_llm && b.can_make_call "tone_analysis") = true
            · cases htone : cb.tone text with
              | none => left; simp [process_page, hc, hf, hh, he, ht, hg, htone]
              | some t =>
                by_cases htr : t.pyTruthy = true
                · right
                  refine ⟨(Bool.and_eq_true _ _ |>.mp hg).2, ?_⟩
                  simp [process_page, hc, hf, hh, he, ht, hg, htone, htr]
                · left; simp [process_page, hc, hf, hh, he, ht, hg, htone, htr]
            · left; simp [process_page, hc, hf, hh, he, ht, hg]

/-- When the budget gate is already closed, process_page neither touches the
budget nor ever invokes the tone analyzer. -/
theorem process_page_no_budget (cb : Collab) (url : String) (store : CacheStore)
    (b : BudgetManager) (use_llm : Bool)
    (h : b.can_make_call "tone_analysis" = false) :
    (process_page cb url store b use_llm).budget = b ∧
      (process_page cb url store b use_llm).calls.tone = 0 := by
  cases hc : cacheGet cb.hash store url with
  | some cached => simp [process_page, hc, Calls.none]
  | none =>
    cases hf : cb.fetch url with
    | none => simp [process_page, hc, hf]
    | some html =>
      by_cases hh : html = ""
      · simp [process_page, hc, hf, hh]
      · cases he : cb.extract html with
        | none => simp [process_page, hc, hf, hh, he]
        | some text =>
          by_cases ht : text = ""
          · simp [process_page, hc, hf, hh, he, ht]
          · simp [process_page, hc, hf, hh, he, ht, h]

/-- On a cache miss with successful fetch and extraction, process_page runs
the rule checks, performs the gated tone step, assembles the result and
writes it to the cache. -/
theorem process_page_success (cb : Collab) (url : String) (store : CacheStore)
    (b : BudgetManager) (use_llm : Bool) (html text : String)
    (hc : cacheGet cb.hash store url = none)
    (hf : cb.fetch url = some html) (hh : html ≠ "")
    (he : cb.extract html = some text) (ht : text ≠ "") :
    process_page cb url store b use_llm =
      (let seo := check_seo (cb.soupOf html) text
       let a11y := check_a11y (cb.soupOf html) text
       let step :=
         if use_llm && b.can_make_call "tone_analysis" then
           match cb.tone text with
           | some t =>
             (some t,
              if t.pyTruthy then b.record_call "tone_analysis" else b, 1)
           | none => (Option.none, b, 1)
         else (Option.none, b, 0)
       let result := assembleResult url seo a11y step.1
       ⟨result, cacheSet cb.hash store url result, step.2.1, ⟨1, 1, 1, step.2.2⟩⟩) := by
  simp only [process_page, hc, hf, he]
  rw [if_neg hh, if_neg ht]

/-- One `d[k] = d.get(k, 0) + 1` step bumps the per-type count by one. -/
theorem bumpType_count (m : List (String × Nat)) (k : String) :
    (((bumpType m k).find? (fun e => e.1 == k)).map (fun e => e.2)).getD 0 =
      ((m.find? (fun e => e.1 == k)).map (fun e => e.2)).getD 0 + 1 := by
  induction m with
  | nil => simp [bumpType]
  | cons a m ih =>
    by_cases hak : (a.1 == k) = true
    · have h1 : a.1 = k := by simpa using hak
      simp [bumpType, List.any_cons, hak, List.find?, h1]
    · have h1 : ¬a.1 = k := by simpa using hak
      have hcons : bumpType (a :: m) k = a :: bumpType m k := by
        by_cases hm : m.any (fun e => e.1 == k) = true
        · simp [bumpType, List.any_cons, hak, hm, h1]
        · simp [bumpType, List.any_cons, hak, hm, h1]
      rw [hcons]
      simp only [List.find?, hak]
      exact ih

/-- record_call bumps the per-type count of its own call type by one. -/
theorem typeCount_record (b : BudgetManager) (ct : String) :
    (b.record_call ct).typeCount ct = b.typeCount ct + 1 :=
  bumpType_count b.calls_by_type ct

/-- The budget invariant process_page preserves: the counter stays within the
ceiling, the per-type tone count stays within the counter, and the ceiling
itself never changes. -/
def BudgetInv (b0 b : BudgetManager) : Prop :=
  (b.calls_made : ℤ) ≤ b.max_calls ∧
    b.typeCount "tone_analysis" ≤ b.calls_made ∧ b.max_calls = b0.max_calls

theorem process_page_inv (cb : Collab) (url : String) (store : CacheStore)
    (b0 b : BudgetManager) (use_llm : Bool) (h : BudgetInv b0 b) :
    BudgetInv b0 (process_page cb url store b use_llm).budget := by
  rcases process_page_budget_cases cb url store b use_llm with heq | ⟨hcan, heq⟩
  · rw [heq]; exact h
  · rw [heq]
    obtain ⟨hle, hty, hmax⟩ := h
    have hlt : (b.calls_made : ℤ) < b.max_calls := by
      by_contra hge
      simp [BudgetManager.can_make_call, le_of_not_lt hge] at hcan
    refine ⟨?_, ?_, hmax⟩
    · show ((b.calls_made + 1 : Nat) : ℤ) ≤ b.max_calls
      push_cast
      omega
    · show (b.record_call "tone_analysis").typeCount "tone_analysis" ≤ b.calls_made + 1
      rw [typeCount_record]
      omega

/-- Driving any URL sequence through process_page preserves the budget
invariant. -/
theorem runPages_inv (cb : Collab) (use_llm : Bool) (urls : List String)
    (store : CacheStore) (b0 b : BudgetManager) (h : BudgetInv b0 b) :
    BudgetInv b0 (runPages cb use_llm urls store b).2 := by
  induction urls generalizing store b with
  | nil => exact h
  | cons u rest ih =>
    exact ih _ _ (process_page_inv cb u store b0 b use_llm h)

/-! ## The claims -/

/-- C1: for every sequential run with BudgetManager(max_calls = N), N ≥ 0,
and every URL sequence driven through process_page with the LLM enabled, the
total calls_made — and with it the recorded tone_analysis count — never
exceeds N, because process_page checks can_make_call (true iff
calls_made < max_calls) before every tone analysis, even though record_call
itself increments unconditionally. -/
theorem C1_budget_ceiling (N : ℤ) (hN : 0 ≤ N) (cb : Collab) (urls : List String)
    (store : CacheStore) :
    (∀ (b : BudgetManager) (ct : String),
        (b.record_call ct).calls_made = b.calls_made + 1) ∧
      (∀ (b : BudgetManager) (ct : String),
        b.can_make_call ct = decide ((b.calls_made : ℤ) < b.max_calls)) ∧
      ((runPages cb true urls store (BudgetManager.new N)).2.calls_made : ℤ) ≤ N ∧
      ((runPages cb true urls store (BudgetManager.new N)).2.typeCount "tone_analysis" : ℤ) ≤ N := by
  have hinv : BudgetInv (BudgetManager.new N) (BudgetManager.new N) :=
    ⟨by simpa [BudgetManager.new] using hN,
     by simp [BudgetManager.new, BudgetManager.typeCount], rfl⟩
  obtain ⟨h1, h2, h3⟩ := runPages_inv cb true urls store _ _ hinv
  have hmain : ((runPages cb true urls store (BudgetManager.new N)).2.calls_made : ℤ) ≤ N :=
    le_of_le_of_eq h1 h3
  refine ⟨fun b ct => rfl, ?_, hmain, ?_⟩
  · intro b ct
    by_cases h : (b.calls_made : ℤ) < b.max_calls
    · simp [BudgetManager.can_make_call, h, not_le.mpr h]
    · simp [BudgetManager.can_make_call, h, not_lt.mp h]
  · calc ((runPages cb true urls store (BudgetManager.new N)).2.typeCount "tone_analysis" : ℤ)
        ≤ ((runPages cb true urls store (BudgetManager.new N)).2.calls_made : ℤ) := by
          exact_mod_cast h2
      _ ≤ N := hmain

/-- Witness for C1 at N = 1 with two URLs. -/
theorem C1_budget_ceiling_witness :
    ((runPages failCollab true ["a", "b"] [] (BudgetManager.new 1)).2.calls_made : ℤ) ≤ 1 :=
  (C1_budget_ceiling 1 (by decide) failCollab ["a", "b"] []).2.2.1

/-- C2: the claim says writing both report files from a results list holding
only error-shaped PageResults never raises. It does raise: with a single URL
whose fetch fails, the batch loop yields exactly the error-shaped result, and
the summary.csv writer's row for it hits a missing "scores"/"issues" key
(KeyError, modelled as `none`), aborting the run. -/
theorem C2_error_results_crash_summary :
    (auditLoop failCollab false ["http://x"] [] (BudgetManager.new 200)).results =
        [errorResult "http://x" "Failed to fetch page"] ∧
      writeSummary
          (auditLoop failCollab false ["http://x"] [] (BudgetManager.new 200)).results =
        none :=
  ⟨rfl, rfl⟩

/-- C3: on a cache hit, process_page returns exactly the stored result and
performs no fetch, no extraction, no rule evaluation, no tone call and no
budget or cache mutation — even when use_llm is true and the stored result
lacks a tone summary. -/
theorem C3_cache_hit_bypasses_everything (cb : Collab) (url : String)
    (store : CacheStore) (b : BudgetManager) (use_llm : Bool) (r : PageResult)
    (h : cacheGet cb.hash store url = some r) :
    process_page cb url store b use_llm = ⟨r, store, b, Calls.none⟩ := by
  simp [process_page, h]

/-- Witness for C3: a cached entry without a tone summary, use_llm true. -/
theorem C3_cache_hit_bypasses_everything_witness :
    process_page okCollab "u" [("u", sampleResult)] (BudgetManager.new 5) true =
      ⟨sampleResult, [("u", sampleResult)], BudgetManager.new 5, Calls.none⟩ :=
  C3_cache_hit_bypasses_everything okCollab "u" [("u", sampleResult)]
    (BudgetManager.new 5) true sampleResult rfl

/-- C4: when fetch or extraction fails, process_page returns the
corresponding error-shaped result ("Failed to fetch page" respectively
"Failed to extract text") and leaves the cache untouched: the URL is still
absent afterwards. -/
theorem C4_failures_not_cached (cb : Collab) (url : String) (store : CacheStore)
    (b : BudgetManager) (use_llm : Bool)
    (hc : cacheGet cb.hash store url = none)
    (hfail : pyFalsyStr (cb.fetch url) = true ∨
      ∃ html, cb.fetch url = some html ∧ html ≠ "" ∧
        pyFalsyStr (cb.extract html) = true) :
    (process_page cb url store b use_llm).result =
        errorResult url
          (if pyFalsyStr (cb.fetch url) then "Failed to fetch page"
           else "Failed to extract text") ∧
      (process_page cb url store b use_llm).cache = store ∧
      cacheGet cb.hash (process_page cb url store b use_llm).cache url = none := by
  rcases hfail with hf | ⟨html, hfe, hh, hex⟩
  · have hout : process_page cb url store b use_llm =
        ⟨errorResult url "Failed to fetch page", store, b, ⟨1, 0, 0, 0⟩⟩ := by
      cases hcf : cb.fetch url with
      | none => simp [process_page, hc, hcf]
      | some s =>
        have hs : s = "" := by simpa [pyFalsyStr, hcf] using hf
        simp [process_page, hc, hcf, hs]
    rw [hout, if_pos hf]
    exact ⟨rfl, rfl, hc⟩
  · have hfalse : pyFalsyStr (cb.fetch url) = false := by
      simp [hfe, pyFalsyStr, hh]
    have hout : process_page cb url store b use_llm =
        ⟨errorResult url "Failed to extract text", store, b, ⟨1, 1, 0, 0⟩⟩ := by
      cases hce : cb.extract html with
      | none => simp [process_page, hc, hfe, hh, hce]
      | some s =>
        have hs : s = "" := by simpa [pyFalsyStr, hce] using hex
        simp [process_page, hc, hfe, hh, hce, hs]
    rw [hout, if_neg (by simp [hfalse])]
    exact ⟨rfl, rfl, hc⟩

/-- Witness for C4: a URL whose fetch fails against an empty cache. -/
theorem C4_failures_not_cached_witness :
    (process_page failCollab "u" [] (BudgetManager.new 5) true).result =
        errorResult "u"
          (if pyFalsyStr (failCollab.fetch "u") then "Failed to fetch page"
           else "Failed to extract text") ∧
      (process_page failCollab "u" [] (BudgetManager.new 5) true).cache = [] ∧
      cacheGet failCollab.hash
          (process_page failCollab "u" [] (BudgetManager.new 5) true).cache "u" =
        none :=
  C4_failures_not_cached failCollab "u" [] (BudgetManager.new 5) true rfl (Or.inl rfl)

/-- C5: cache round-trip — after `set(url, r)`, `get(url)` returns exactly
`r`, for any digest function, prior store contents, key and stored result. -/
theorem C5_cache_roundtrip (hash : String → String) (store : CacheStore)
    (key : String) (r : PageResult) :
    cacheGet hash (cacheSet hash store key r) key = some r := by
  simp [cacheGet, cacheSet, List.find?]

/-- C6 counterexample: the claim puts the heading-hierarchy sub-score among
those that are 100 on empty input, but check_a11y scores it 50 ("No headings
found") on a page with no headings. -/
theorem C6_counterexample :
    ¬(List.lookup "heading_hierarchy" (check_a11y emptySoup "").scores =
        some 100) := by
  decide

/-- C6 (amended): on empty HTML with no images, links or headings and empty
text, the image-alts and link-text sub-scores are the perfect 100; the
title, meta-description, H1 and canonical sub-scores are 0 on absence; the
word-count sub-score is 25 per its below-300 threshold; and the
heading-hierarchy sub-score is 50, not 100 — absence of headings is
penalized. -/
theorem C6_empty_page_scores :
    (check_seo emptySoup "").scores =
        [("title", 0), ("meta_description", 0), ("h1", 0), ("canonical", 0),
         ("word_count", 25)] ∧
      (check_a11y emptySoup "").scores =
        [("image_alts", 100), ("heading_hierarchy", 50), ("link_text", 100)] := by
  decide

/-- The unlink loop of Cache.clear empties the store and counts one unlink
per entry. -/
theorem clearLoop_spec (store : CacheStore) :
    ∀ n, clearLoop store n = ([], store.length + n) := by
  induction store with
  | nil => intro n; simp [clearLoop]
  | cons a rest ih =>
    intro n
    rw [show clearLoop (a :: rest) n = clearLoop rest (n + 1) from rfl, ih (n + 1)]
    simp only [List.length_cons, Prod.mk.injEq, true_and]
    omega

/-- C7 counterexample: the claim says clear returns the number of entries
removed; on a one-entry store that would be `some 1`, but the method body has
no return statement, so it returns None. -/
theorem C7_counterexample :
    ¬((cacheClear [("k", sampleResult)]).ret = some 1) := by
  decide

/-- C7 (amended): Cache.clear deletes every entry in the store and counts
(and logs) the number removed, but it returns None — the count is not
returned to the caller. -/
theorem C7_clear_deletes_all_returns_none (store : CacheStore) :
    (cacheClear store).store = [] ∧ (cacheClear store).deleted = store.length ∧
      (cacheClear store).ret = none := by
  simp [cacheClear, clearLoop_spec store 0]

/-- C9: with max_calls = 0 and the LLM enabled, the batch loop processes
exactly one URL when the input is non-empty and then stops — the post-page
budget check fails immediately even though no tone call was ever attempted —
so the result list has length min(1, number of URLs). -/
theorem C9_zero_budget_stops_after_one (cb : Collab) (store : CacheStore)
    (urls : List String) :
    (auditLoop cb false urls store (BudgetManager.new 0)).results.length =
        min 1 urls.length ∧
      (auditLoop cb false urls store (BudgetManager.new 0)).budget.calls_made = 0 ∧
      (auditLoop cb false urls store (BudgetManager.new 0)).calls.tone = 0 := by
  cases urls with
  | nil => exact ⟨rfl, rfl, rfl⟩
  | cons u rest =>
    obtain ⟨hb, htone⟩ :=
      process_page_no_budget cb u store (BudgetManager.new 0) true rfl
    have hcond : (process_page cb u store (BudgetManager.new 0) true).budget.can_make_call
        "default" = false := by
      rw [hb]; decide
    have hloop : auditLoop cb false (u :: rest) store (BudgetManager.new 0) =
        ⟨[(process_page cb u store (BudgetManager.new 0) true).result],
         (process_page cb u store (BudgetManager.new 0) true).cache,
         (process_page cb u store (BudgetManager.new 0) true).budget,
         (process_page cb u store (BudgetManager.new 0) true).calls⟩ := by
      simp only [auditLoop, Bool.not_false, hcond, Bool.not_true, Bool.and_true,
        if_true]
    rw [hb] at hloop
    rw [hloop]
    refine ⟨?_, rfl, htone⟩
    simp only [List.length_cons, List.length_nil]
    omega

/-- C8: with max_calls = 2 and five URLs all eligible for tone analysis
(none cached — the first two URLs hash differently — fetch, extraction and
the analyzer all succeeding with truthy output), the batch loop returns
exactly the first two URLs' results in input order, both carrying a non-null
tone_summary, stops at the failed post-page budget check, and so returns
fewer than 5 results with the budget fully consumed. -/
theorem C8_budget_exhausted_mid_batch
    (F E : String → String) (T : String → Json) (soupF : String → Soup)
    (hashF : String → String) (u1 u2 u3 u4 u5 : String)
    (hF : ∀ s, F s ≠ "") (hE : ∀ s, E s ≠ "")
    (hT : ∀ s, (T s).pyTruthy = true) (hu : hashF u2 ≠ hashF u1) :
    (auditLoop ⟨fun u => some (F u), fun h => some (E h), soupF,
          fun t => some (T t), hashF⟩ false [u1, u2, u3, u4, u5] []
          (BudgetManager.new 2)).results.map
        (fun r => (r.url, r.tone_summary.isSome)) = [(u1, true), (u2, true)] ∧
      (auditLoop ⟨fun u => some (F u), fun h => some (E h), soupF,
          fun t => some (T t), hashF⟩ false [u1, u2, u3, u4, u5] []
          (BudgetManager.new 2)).results.length < 5 ∧
      (auditLoop ⟨fun u => some (F u), fun h => some (E h), soupF,
          fun t => some (T t), hashF⟩ false [u1, u2, u3, u4, u5] []
          (BudgetManager.new 2)).budget.calls_made = 2 := by
  have hcan0 : (BudgetManager.new 2).can_make_call "tone_analysis" = true := by decide
  have hcan1 : ((BudgetManager.new 2).record_call "tone_analysis").can_make_call
      "tone_analysis" = true := by decide
  have hcan1d : ((BudgetManager.new 2).record_call "tone_analysis").can_make_call
      "default" = true := by decide
  have hcan2d : (((BudgetManager.new 2).record_call "tone_analysis").record_call
      "tone_analysis").can_make_call "default" = false := by decide
  have hbeq : (hashF u1 == hashF u2) = false := by
    rw [beq_eq_false_iff_ne]
    exact fun h => hu h.symm
  have hp1 : process_page
      ⟨fun u => some (F u), fun h => some (E h), soupF, fun t => some (T t), hashF⟩
      u1 [] (BudgetManager.new 2) true =
      ⟨assembleResult u1 (check_seo (soupF (F u1)) (E (F u1)))
          (check_a11y (soupF (F u1)) (E (F u1))) (some (T (E (F u1)))),
       [(hashF u1,
         assembleResult u1 (check_seo (soupF (F u1)) (E (F u1)))
           (check_a11y (soupF (F u1)) (E (F u1))) (some (T (E (F u1)))))],
       (BudgetManager.new 2).record_call "tone_analysis", ⟨1, 1, 1, 1⟩⟩ := by
    rw [process_page_success _ u1 [] (BudgetManager.new 2) true (F u1) (E (F u1))
      rfl rfl (hF u1) rfl (hE (F u1))]
    simp only [hcan0, hT, Bool.true_and, if_true]
    rfl
  have hget2 : cacheGet
      (Collab.hash ⟨fun u => some (F u), fun h => some (E h), soupF,
        fun t => some (T t), hashF⟩)
      [(hashF u1,
        assembleResult u1 (check_seo (soupF (F u1)) (E (F u1)))
          (check_a11y (soupF (F u1)) (E (F u1))) (some (T (E (F u1)))))] u2 = none := by
    simp [cacheGet, List.find?, hbeq]
  have hp2 : process_page
      ⟨fun u => some (F u), fun h => some (E h), soupF, fun t => some (T t), hashF⟩
      u2
      [(hashF u1,
        assembleResult u1 (check_seo (soupF (F u1)) (E (F u1)))
          (check_a11y (soupF (F u1)) (E (F u1))) (some (T (E (F u1)))))]
      ((BudgetManager.new 2).record_call "tone_analysis") true =
      ⟨assembleResult u2 (check_seo (soupF (F u2)) (E (F u2)))
          (check_a11y (soupF (F u2)) (E (F u2))) (some (T (E (F u2)))),
       cacheSet hashF
         [(hashF u1,
           assembleResult u1 (check_seo (soupF (F u1)) (E (F u1)))
             (check_a11y (soupF (F u1)) (E (F u1))) (some (T (E (F u1)))))] u2
         (assembleResult u2 (check_seo (soupF (F u2)) (E (F u2)))
           (check_a11y (soupF (F u2)) (E (F u2))) (some (T (E (F u2))))),
       ((BudgetManager.new 2).record_call "tone_analysis").record_call "tone_analysis",
       ⟨1, 1, 1, 1⟩⟩ := by
    rw [process_page_success _ u2 _ ((BudgetManager.new 2).record_call "tone_analysis")
      true (F u2) (E (F u2)) hget2 rfl (hF u2) rfl (hE (F u2))]
    simp only [hcan1, hT, Bool.true_and, if_true]
  have hloop : auditLoop
      ⟨fun u => some (F u), fun h => some (E h), soupF, fun t => some (T t), hashF⟩
      false [u1, u2, u3, u4, u5] [] (BudgetManager.new 2) =
      ⟨[assembleResult u1 (check_seo (soupF (F u1)) (E (F u1)))
          (check_a11y (soupF (F u1)) (E (F u1))) (some (T (E (F u1)))),
        assembleResult u2 (check_seo (soupF (F u2)) (E (F u2)))
          (check_a11y (soupF (F u2)) (E (F u2))) (some (T (E (F u2))))],
       cacheSet hashF
         [(hashF u1,
           assembleResult u1 (check_seo (soupF (F u1)) (E (F u1)))
             (check_a11y (soupF (F u1)) (E (F u1))) (some (T (E (F u1)))))] u2
         (assembleResult u2 (check_seo (soupF (F u2)) (E (F u2)))
           (check_a11y (soupF (F u2)) (E (F u2))) (some (T (E (F u2))))),
       ((BudgetManager.new 2).record_call "tone_analysis").record_call "tone_analysis",
       Calls.add ⟨1, 1, 1, 1⟩ ⟨1, 1, 1, 1⟩⟩ := by
    simp only [auditLoop, Bool.not_false, hp1, hp2, hcan1d, hcan2d, Bool.not_true,
      Bool.true_and, if_false, if_true]
    simp
  rw [hloop]
  refine ⟨rfl, by simp, rfl⟩

/-- Witness for C8 with constant collaborators and the URLs u1..u5. -/
theorem C8_budget_exhausted_mid_batch_witness :
    (auditLoop ⟨fun u => some ((fun _ => "<html>") u),
          fun h => some ((fun _ => "body text") h), fun _ => emptySoup,
          fun t => some ((fun _ => okJson) t), fun u => u⟩ false
          ["u1", "u2", "u3", "u4", "u5"] [] (BudgetManager.new 2)).results.map
        (fun r => (r.url, r.tone_summary.isSome)) = [("u1", true), ("u2", true)] ∧
      (auditLoop ⟨fun u => some ((fun _ => "<html>") u),
          fun h => some ((fun _ => "body text") h), fun _ => emptySoup,
          fun t => some ((fun _ => okJson) t), fun u => u⟩ false
          ["u1", "u2", "u3", "u4", "u5"] [] (BudgetManager.new 2)).results.length < 5 ∧
      (auditLoop ⟨fun u => some ((fun _ => "<html>") u),
          fun h => some ((fun _ => "body text") h), fun _ => emptySoup,
          fun t => some ((fun _ => okJson) t), fun u => u⟩ false
          ["u1", "u2", "u3", "u4", "u5"] [] (BudgetManager.new 2)).budget.calls_made = 2 :=
  C8_budget_exhausted_mid_batch (fun _ => "<html>") (fun _ => "body text")
    (fun _ => okJson) (fun _ => emptySoup) (fun u => u) "u1" "u2" "u3" "u4" "u5"
    (fun _ => by show "<html>" ≠ ""; decide)
    (fun _ => by show "body text" ≠ ""; decide)
    (fun _ => by show okJson.pyTruthy = true; decide)
    (by show "u2" ≠ "u1"; decide)

/-- Every non-None analyze_tone return is truthy in Python's sense: the two
placeholder dicts are non-empty, and a parsed value that passed the
required-keys check must be a non-empty dict, a non-empty list, or a
non-empty string. -/
theorem analyze_tone_some_truthy (loads : String → Option Json) (llm : Option String)
    (j : Json) (h : analyze_tone loads llm = some j) : j.pyTruthy = true := by
  cases llm with
  | none => exact absurd h (by simp [analyze_tone])
  | some resp =>
    simp only [analyze_tone] at h
    cases hl : loads (stripFence resp) with
    | none =>
      simp only [hl] at h
      obtain rfl : parseErrorPlaceholder = j := Option.some.inj h
      rfl
    | some result =>
      simp only [hl] at h
      cases hk : allKeysIn requiredKeys result with
      | none => simp [hk] at h
      | some bb =>
        cases bb with
        | false =>
          simp only [hk] at h
          obtain rfl : missingKeysPlaceholder = j := Option.some.inj h
          rfl
        | true =>
          simp only [hk] at h
          obtain rfl : result = j := Option.some.inj h
          have hin : pyIn "readability" result = some true := by
            simp only [requiredKeys, allKeysIn] at hk
            cases hv : pyIn "readability" result with
            | none => simp [hv] at hk
            | some c =>
              cases c with
              | false => simp [hv] at hk
              | true => rfl
          cases result with
          | null => exact absurd hin (by simp [pyIn])
          | bool b => exact absurd hin (by simp [pyIn])
          | num q => exact absurd hin (by simp [pyIn])
          | str s =>
            have hcs : strContains s "readability" = true := by
              simpa [pyIn] using hin
            cases hs : s == "" with
            | false =>
              have hne : s ≠ "" := beq_eq_false_iff_ne.mp hs
              simp [Json.pyTruthy, hne]
            | true =>
              have hse : s = "" := by simpa using hs
              subst hse
              exact absurd hcs (by decide)
          | arr xs =>
            have hx : xs.any
                (fun x => match x with | .str s => s == "readability" | _ => false) =
                true := by
              simpa [pyIn] using hin
            cases xs with
            | nil => simp at hx
            | cons a t => simp [Json.pyTruthy]
          | obj fs =>
            have hx : fs.any (fun e => e.1 == "readability") = true := by
              simpa [pyIn] using hin
            cases fs with
            | nil => simp at hx
            | cons a t => simp [Json.pyTruthy]

/-- C10: a tone-analyzer call whose model output is malformed still consumes
budget — analyze_tone turns a JSON parse failure or a missing required key
into a non-null "Unable to analyze" placeholder, so process_page records the
call; every non-None analyzer return records the call, and only an analyzer
invocation that raises (returning None) leaves the budget unchanged. -/
theorem C10_malformed_tone_output_consumes_budget
    (loads : String → Option Json) (llm : String → Option String)
    (fetchF extractF : String → Option String) (soupF : String → Soup)
    (hashF : String → String) (url html text : String) (store : CacheStore)
    (b : BudgetManager)
    (hc : cacheGet hashF store url = none)
    (hf : fetchF url = some html) (hh : html ≠ "")
    (he : extractF html = some text) (ht : text ≠ "")
    (hcan : b.can_make_call "tone_analysis" = true) :
    (∀ resp, llm text = some resp → loads (stripFence resp) = none →
        analyze_tone loads (llm text) = some parseErrorPlaceholder) ∧
      (∀ resp j, llm text = some resp → loads (stripFence resp) = some j →
        allKeysIn requiredKeys j = some false →
        analyze_tone loads (llm text) = some missingKeysPlaceholder) ∧
      (∀ j, analyze_tone loads (llm text) = some j →
        (process_page ⟨fetchF, extractF, soupF,
              fun t => analyze_tone loads (llm t), hashF⟩
            url store b true).budget.calls_made = b.calls_made + 1) ∧
      (analyze_tone loads (llm text) = none →
        (process_page ⟨fetchF, extractF, soupF,
              fun t => analyze_tone loads (llm t), hashF⟩
            url store b true).budget = b) := by
  have hsucc := process_page_success
    ⟨fetchF, extractF, soupF, fun t => analyze_tone loads (llm t), hashF⟩
    url store b true html text hc hf hh he ht
  refine ⟨?_, ?_, ?_, ?_⟩
  · intro resp hresp hparse
    simp [analyze_tone, hresp, hparse]
  · intro resp j hresp hparse hkeys
    simp [analyze_tone, hresp, hparse, hkeys]
  · intro j hj
    have htr := analyze_tone_some_truthy loads (llm text) j hj
    rw [hsucc]
    simp [hcan, hj, htr, BudgetManager.record_call]
  · intro hnone
    rw [hsucc]
    simp [hcan, hnone]

/-- A json.loads stub that always fails to parse. -/
def loadsNone : String → Option Json := fun _ => none

/-- An LLM stub that always answers with the response "x". -/
def llmConst : String → Option String := fun _ => some "x"

/-- Witness for C10: an always-successful page whose analyzer response never
parses as JSON. -/
theorem C10_malformed_tone_output_consumes_budget_witness :
    (∀ resp, llmConst "body text" = some resp → loadsNone (stripFence resp) = none →
        analyze_tone loadsNone (llmConst "body text") = some parseErrorPlaceholder) ∧
      (∀ resp j, llmConst "body text" = some resp →
        loadsNone (stripFence resp) = some j →
        allKeysIn requiredKeys j = some false →
        analyze_tone loadsNone (llmConst "body text") = some missingKeysPlaceholder) ∧
      (∀ j, analyze_tone loadsNone (llmConst "body text") = some j →
        (process_page ⟨okCollab.fetch, okCollab.extract, okCollab.soupOf,
              fun t => analyze_tone loadsNone (llmConst t), okCollab.hash⟩
            "u" [] (BudgetManager.new 1) true).budget.calls_made =
          (BudgetManager.new 1).calls_made + 1) ∧
      (analyze_tone loadsNone (llmConst "body text") = none →
        (process_page ⟨okCollab.fetch, okCollab.extract, okCollab.soupOf,
              fun t => analyze_tone loadsNone (llmConst t), okCollab.hash⟩
            "u" [] (BudgetManager.new 1) true).budget = BudgetManager.new 1) :=
  C10_malformed_tone_output_consumes_budget loadsNone llmConst okCollab.fetch
    okCollab.extract okCollab.soupOf okCollab.hash "u" "<html>" "body text" []
    (BudgetManager.new 1) rfl rfl (by decide) rfl (by decide) rfl

end ContentAuditor
